import Mathlib

/-!
Shallow embedding of the overpass_poc state-transition code.

Sources embedded:
- src/frontend/src/wrappers/htlc.ts      (HTLCWrapper: claim / refund / getState)
- src/frontend/src/wrappers/payment.ts   (PaymentChannelContract: transfer / settle)
- src/unnamed/part_007                   (DAGBOC: addCell / processOpCode)
- src/frontend/src/types/state_boc.ts    (STATEBOC: getHash / serializeToVec /
                                          deserialize / computeHash)

Byte sequences (TS Uint8Array) are modelled as List Nat, TS bigint/number as
Int, and thrown exceptions as Except String carrying the thrown message.
Cryptographic hashing (crypto.subtle.digest, an external web API) is kept
abstract: theorems quantify over the digest function and the embedding exposes
the exact byte string the code feeds to it.
-/

/-! ## HTLC (src/frontend/src/wrappers/htlc.ts) -/

/-- The HTLCState record of htlc.ts: hashLock, timeLock, amount, sender,
recipient, and the claimed/refunded flags (both false on construction). -/
structure HTLCState where
  hashLock : List Nat
  timeLock : Int
  amount : Int
  sender : List Nat
  recipient : List Nat
  claimed : Bool
  refunded : Bool
  deriving DecidableEq, Repr

/-- The HTLCWrapper constructor: flags start false. -/
def HTLCWrapper.make (hashLock : List Nat) (timeLock : Int) (amount : Int)
    (sender recipient : List Nat) : HTLCState :=
  { hashLock := hashLock, timeLock := timeLock, amount := amount,
    sender := sender, recipient := recipient, claimed := false, refunded := false }

/-- In claim(), the guard is `if (!verifyHash())` where `verifyHash` is an
async arrow function. Calling it returns a Promise object, and every object
is truthy in JS, so `!verifyHash()` is always false: the preimage branch is
dead code. This constant records that truthiness. -/
def verifyHashCallTruthy : Bool := true

/-- HTLCWrapper.claim, translated line by line. The preimage comparison
inside verifyHash is never consulted because the Promise returned by
`verifyHash()` is tested for truthiness directly (no await). -/
def HTLCWrapper.claim (h : HTLCState) (_preimage : List Nat) :
    Except String HTLCState :=
  if !verifyHashCallTruthy then
    .error "Invalid preimage"
  else if h.claimed || h.refunded then
    .error "HTLC already claimed or refunded"
  else
    .ok { h with claimed := true }

/-- HTLCWrapper.refund: time-lock check first (independently of state), then
the resolved check, then mark refunded. -/
def HTLCWrapper.refund (h : HTLCState) (currentTime : Int) :
    Except String HTLCState :=
  if currentTime ≤ h.timeLock then
    .error "Time lock not expired"
  else if h.claimed || h.refunded then
    .error "HTLC already claimed or refunded"
  else
    .ok { h with refunded := true }

/-! ## Payment channel (src/frontend/src/wrappers/payment.ts) -/

/-- The Result shape `{ success, error }` returned by transfer and settle. -/
structure TsResult where
  success : Bool
  error : Option String
  deriving DecidableEq, Repr

/-- PaymentChannelContract state: two participants, two balances, a nonce.
(The state_boc / dag_boc members are never touched by transfer or settle.) -/
structure PaymentChannelContract where
  participant0 : List Nat
  participant1 : List Nat
  balance0 : Int
  balance1 : Int
  nonce : Int
  deriving DecidableEq, Repr

/-- The constructor: balances = [deposit, deposit], nonce = 0. -/
def PaymentChannelContract.make (alice bob : List Nat) (deposit : Int) :
    PaymentChannelContract :=
  { participant0 := alice, participant1 := bob,
    balance0 := deposit, balance1 := deposit, nonce := 0 }

/-- Read `this.balances[i]` for the indices transfer can reach (it only
indexes after establishing i < 2). -/
def PaymentChannelContract.bal (c : PaymentChannelContract) (i : Nat) : Int :=
  if i = 0 then c.balance0 else c.balance1

/-- Write `this.balances[i] = v` for i < 2. -/
def PaymentChannelContract.setBal (c : PaymentChannelContract) (i : Nat) (v : Int) :
    PaymentChannelContract :=
  if i = 0 then { c with balance0 := v } else { c with balance1 := v }

/-- PaymentChannelContract.transfer, translated line by line: the only index
check is `from >= 2 || to >= 2`; then the balance check; then the two
sequential balance mutations and the nonce increment. -/
def PaymentChannelContract.transfer (c : PaymentChannelContract)
    (src dst : Nat) (amount : Int) : TsResult × PaymentChannelContract :=
  if 2 ≤ src ∨ 2 ≤ dst then
    ({ success := false, error := some "Invalid participant index" }, c)
  else if c.bal src < amount then
    ({ success := false, error := some "Insufficient balance" }, c)
  else
    let c1 := c.setBal src (c.bal src - amount)
    let c2 := c1.setBal dst (c1.bal dst + amount)
    ({ success := true, error := none }, { c2 with nonce := c2.nonce + 1 })

/-- PaymentChannelContract.settle: the body only returns `{success: true}`;
no field of the contract is written. -/
def PaymentChannelContract.settle (c : PaymentChannelContract) :
    TsResult × PaymentChannelContract :=
  ({ success := true, error := none }, c)

/-! ## DAGBOC (src/unnamed/part_007) -/

/-- DAGBOC state: dagCells, references, roots, optional hash, stateMapping.
Cells and roots hold raw byte sequences; references are (from, to) pairs. -/
structure DAGBOC where
  dagCells : List (List Nat)
  references : List (Nat × Nat)
  roots : List (List Nat)
  hash : Option (List Nat)
  stateMapping : List (List Nat × Nat)
  deriving DecidableEq, Repr

/-- The DAGBOC constructor: everything empty, hash unset. -/
def DAGBOC.empty : DAGBOC :=
  { dagCells := [], references := [], roots := [], hash := none, stateMapping := [] }

/-- DAGBOC.addCell: the new id is the current length; the cell is appended. -/
def DAGBOC.addCell (s : DAGBOC) (cellData : List Nat) : Nat × DAGBOC :=
  (s.dagCells.length, { s with dagCells := s.dagCells ++ [cellData] })

/-- The op-code payloads accepted by DAGBOC.processOpCode's switch; any other
tag falls into the default branch, modelled by `unsupported`. -/
inductive OpCode where
  | add (cell : List Nat)
  | setCode (code newCode : List Nat)
  | setData (cell newData : List Nat)
  | addReference (src dst : Nat)
  | setRoot (index : Nat)
  | remove (cell : List Nat)
  | removeReference (src dst : Nat)
  | unsupported
  deriving DecidableEq, Repr

/-- DAGBOC.processOpCode, translated case by case. Thrown errors carry the
thrown message. SetCode/SetData/Remove locate a cell by content equality
(arrayEquals); AddReference pushes the pair with no existence or cycle check;
SetRoot pushes a copy of the indexed cell's content (`this.dagCells[i]` is an
object, hence truthy, exactly when i is in bounds); Remove splices the first
matching cell out without touching references or roots. -/
def DAGBOC.processOpCode (s : DAGBOC) (op : OpCode) : Except String DAGBOC :=
  match op with
  | .add cell => .ok (s.addCell cell).2
  | .setCode code newCode =>
      match s.dagCells.findIdx? (· == code) with
      | some i => .ok { s with dagCells := s.dagCells.set i newCode }
      | none => .error "Code not found"
  | .setData cell newData =>
      match s.dagCells.findIdx? (· == cell) with
      | some i => .ok { s with dagCells := s.dagCells.set i newData }
      | none => .error "Cell not found"
  | .addReference src dst =>
      .ok { s with references := s.references ++ [(src, dst)] }
  | .setRoot index =>
      match s.dagCells[index]? with
      | some cell => .ok { s with roots := s.roots ++ [cell] }
      | none => .error "Index out of bounds"
  | .remove cell =>
      match s.dagCells.findIdx? (· == cell) with
      | some i => .ok { s with dagCells := s.dagCells.eraseIdx i }
      | none => .error "Cell not found"
  | .removeReference src dst =>
      match s.references.findIdx? (fun p => p.1 == src && p.2 == dst) with
      | some i => .ok { s with references := s.references.eraseIdx i }
      | none => .error "Reference not found"
  | .unsupported => .error "Unsupported operation"

/-- Apply a list of op codes in order, stopping at the first thrown error. -/
def DAGBOC.applyOps (s : DAGBOC) : List OpCode → Except String DAGBOC
  | [] => .ok s
  | op :: ops => do DAGBOC.applyOps (← s.processOpCode op) ops

/-! ## STATEBOC (src/frontend/src/types/state_boc.ts)

STATEBOC's fields are declared `Uint8Array[]`, but `deserialize` assigns the
raw result of `JSON.parse` to them without reconstructing typed arrays, so at
run time the fields hold arbitrary JS values. `JsVal` is the value domain. -/

/-- Dynamic JS values that can reach STATEBOC's fields: genuine byte arrays
(Uint8Array), and the plain JSON values that JSON.parse produces. -/
inductive JsVal where
  | undefined
  | null
  | boolean (b : Bool)
  | num (n : Int)
  | str (s : String)
  | arr (elems : List JsVal)
  | obj (fields : List (String × JsVal))
  | bytes (data : List Nat)

/-- JS truthiness: undefined, null, false, 0 and "" are falsy; every object
(including every Uint8Array and every JSON.parse object/array) is truthy. -/
def jsTruthy : JsVal → Bool
  | .undefined => false
  | .null => false
  | .boolean b => b
  | .num n => n != 0
  | .str s => s != ""
  | .arr _ => true
  | .obj _ => true
  | .bytes _ => true

mutual

/-- What `JSON.parse(JSON.stringify(v))` yields for a value v in this domain.
A Uint8Array has no toJSON, so JSON.stringify enumerates its own enumerable
index properties, producing a plain object with string keys "0", "1", ...;
parse then yields that plain object, not a Uint8Array. Object entries whose
value is undefined are dropped by stringify. -/
def jsonRT : JsVal → JsVal
  | .undefined => .undefined
  | .null => .null
  | .boolean b => .boolean b
  | .num n => .num n
  | .str s => .str s
  | .arr xs => .arr (jsonRTList xs)
  | .obj kvs => .obj (jsonRTFields kvs)
  | .bytes l => .obj (jsonBytesFields 0 l)

/-- Round-trip every element of a JS array. -/
def jsonRTList : List JsVal → List JsVal
  | [] => []
  | x :: xs => jsonRT x :: jsonRTList xs

/-- Round-trip object entries, dropping those with undefined values (as
JSON.stringify does). -/
def jsonRTFields : List (String × JsVal) → List (String × JsVal)
  | [] => []
  | (_, .undefined) :: kvs => jsonRTFields kvs
  | (k, v) :: kvs => (k, jsonRT v) :: jsonRTFields kvs

/-- The index-keyed entries JSON.stringify emits for a Uint8Array's bytes. -/
def jsonBytesFields (i : Nat) : List Nat → List (String × JsVal)
  | [] => []
  | b :: bs => (toString i, JsVal.num b) :: jsonBytesFields (i + 1) bs

end

/-- Property read `v.key` on a parsed JS value: the named entry if v is an
object that has it, undefined otherwise. -/
def JsVal.getField (v : JsVal) (key : String) : JsVal :=
  match v with
  | .obj kvs => ((kvs.find? (fun kv => kv.1 == key)).map (·.2)).getD .undefined
  | _ => .undefined

/-- STATEBOC state: stateCells, references, roots (each an array of values
that the code treats as Uint8Arrays) and the optional cached hashValue. -/
structure STATEBOC where
  stateCells : List JsVal
  references : List JsVal
  roots : List JsVal
  hashValue : Option JsVal

/-- The STATEBOC constructor: empty arrays, hashValue undefined. -/
def STATEBOC.new : STATEBOC :=
  { stateCells := [], references := [], roots := [], hashValue := none }

/-- STATEBOC.getHash: `this.hashValue || new Uint8Array(32)` — the cached
value when it is set (a Uint8Array is always truthy), 32 zero bytes
otherwise. No field other than hashValue is read. -/
def STATEBOC.getHash (s : STATEBOC) : JsVal :=
  match s.hashValue with
  | some v => if jsTruthy v then v else .bytes (List.replicate 32 0)
  | none => .bytes (List.replicate 32 0)

/-- The object literal serializeToVec passes to JSON.stringify; the returned
bytes are its UTF-8 encoding (TextEncoder), which the TextDecoder in
deserialize inverts exactly, so the byte layer is left implicit and the
serialized form is studied as this JS value. A hash field whose value is
undefined is present here and dropped by stringify (see jsonRTFields). -/
def STATEBOC.serializeData (s : STATEBOC) : JsVal :=
  .obj [("stateCells", .arr s.stateCells),
        ("references", .arr s.references),
        ("roots", .arr s.roots),
        ("hash", match s.hashValue with | some v => v | none => .undefined)]

/-- Read a field that the code assigns to one of the array-typed members.
`deserialize(serialize(s))` always finds a JSON array here; the fallback for
a non-array value never fires on that path. -/
def jsAsArray : JsVal → List JsVal
  | .arr xs => xs
  | _ => []

/-- STATEBOC.deserialize applied to an already-parsed value: copy the three
parsed arrays into the fields verbatim (no Uint8Array reconstruction), and
set hashValue only when `parsed.hash` is truthy. -/
def STATEBOC.deserialize (parsed : JsVal) : STATEBOC :=
  let base : STATEBOC :=
    { stateCells := jsAsArray (parsed.getField "stateCells"),
      references := jsAsArray (parsed.getField "references"),
      roots := jsAsArray (parsed.getField "roots"),
      hashValue := none }
  if jsTruthy (parsed.getField "hash") then
    { base with hashValue := some (parsed.getField "hash") }
  else
    base

/-- `deserialize(serializeToVec(s))`: serialize to the JSON value, push it
through stringify/parse, and deserialize. -/
def STATEBOC.roundTrip (s : STATEBOC) : STATEBOC :=
  STATEBOC.deserialize (jsonRT s.serializeData)

/-- `[...Array.from(curr)]` as used by computeHash to flatten one element of
stateCells/references/roots into digest bytes: a Uint8Array yields its bytes;
a plain JSON.parse object is not iterable and has no length property, so
Array.from yields the empty array. -/
def jsArrayFromBytes : JsVal → List Nat
  | .bytes l => l
  | _ => []

/-- The exact byte string STATEBOC.computeHash assembles and feeds to
crypto.subtle.digest: the flattened stateCells, then references, then roots.
The cached hashValue is not part of it. -/
def STATEBOC.digestInput (s : STATEBOC) : List Nat :=
  (s.stateCells.map jsArrayFromBytes).flatten ++
    (s.references.map jsArrayFromBytes).flatten ++
    (s.roots.map jsArrayFromBytes).flatten

/-- STATEBOC.computeHash with the SHA-256 digest kept abstract: the digest
function is applied to exactly the assembled bytes. -/
def STATEBOC.computeHashWith (digest : List Nat → List Nat) (s : STATEBOC) :
    List Nat :=
  digest s.digestInput

/-- A one-cell snapshot used to exhibit the serialize/deserialize round-trip
failure: one Uint8Array cell holding the single byte 1. -/
def bocExample : STATEBOC :=
  { stateCells := [.bytes [1]], references := [], roots := [], hashValue := none }

/-! ## Theorems -/

/-- C4 (code bug evidence): on a Pending HTLC, claim(preimage) succeeds and
marks the HTLC claimed even when the digest of the preimage differs from the
hashLock — the `!verifyHash()` guard tests a Promise object, which is always
truthy, so the InvalidProof branch is unreachable. -/
theorem claim_accepts_wrong_preimage (digest : List Nat → List Nat)
    (h : HTLCState) (preimage : List Nat)
    (hc : h.claimed = false) (hr : h.refunded = false)
    (hbad : digest preimage ≠ h.hashLock) :
    HTLCWrapper.claim h preimage = .ok { h with claimed := true } := by
  simp [HTLCWrapper.claim, verifyHashCallTruthy, hc, hr]

/-- C4 witness: a concrete Pending HTLC whose hashLock is 32 zero bytes is
claimed by a preimage whose digest is [1]. -/
theorem claim_accepts_wrong_preimage_witness :
    HTLCWrapper.claim (HTLCWrapper.make (List.replicate 32 0) 100 5 [1] [2]) [9]
      = .ok { HTLCWrapper.make (List.replicate 32 0) 100 5 [1] [2] with
              claimed := true } :=
  claim_accepts_wrong_preimage (fun _ => [1]) _ [9] rfl rfl (by decide)

/-- C8: refund(currentTime) fails "Time lock not expired" whenever
currentTime ≤ timeLock, for every HTLC state; once currentTime > timeLock it
fails "HTLC already claimed or refunded" when the HTLC is not Pending, and
otherwise marks it Refunded. -/
theorem refund_spec (h : HTLCState) (t : Int) :
    (t ≤ h.timeLock → HTLCWrapper.refund h t = .error "Time lock not expired") ∧
    (h.timeLock < t → (h.claimed = true ∨ h.refunded = true) →
      HTLCWrapper.refund h t = .error "HTLC already claimed or refunded") ∧
    (h.timeLock < t → h.claimed = false → h.refunded = false →
      HTLCWrapper.refund h t = .ok { h with refunded := true }) := by
  refine ⟨fun hle => by simp [HTLCWrapper.refund, hle], ?_, ?_⟩
  · intro hlt hres
    have hn : ¬ t ≤ h.timeLock := not_le.mpr hlt
    rcases hres with h1 | h1 <;> simp [HTLCWrapper.refund, hn, h1]
  · intro hlt h1 h2
    have hn : ¬ t ≤ h.timeLock := not_le.mpr hlt
    simp [HTLCWrapper.refund, hn, h1, h2]

/-- C8 witness: with timeLock 100, refund at time 50 fails "Time lock not
expired" and refund of the Pending HTLC at time 150 marks it Refunded. -/
theorem refund_spec_witness :
    HTLCWrapper.refund (HTLCWrapper.make [0] 100 5 [1] [2]) 50
        = .error "Time lock not expired" ∧
    HTLCWrapper.refund (HTLCWrapper.make [0] 100 5 [1] [2]) 150
        = .ok { HTLCWrapper.make [0] 100 5 [1] [2] with refunded := true } :=
  ⟨(refund_spec (HTLCWrapper.make [0] 100 5 [1] [2]) 50).1 (by decide),
   (refund_spec (HTLCWrapper.make [0] 100 5 [1] [2]) 150).2.2 (by decide) rfl rfl⟩

/-- C2 (counterexample): with balances [0, 0], transfer(0, 2, 1) has
amount 1 > balances[0] = 0, yet it fails with "Invalid participant index",
not "Insufficient balance" — the index check runs first, so an insufficient
transfer with an out-of-range `to` never reports InsufficientBalance. -/
theorem transfer_insufficient_reports_invalid_index :
    (PaymentChannelContract.make [] [] 0).bal 0 < 1 ∧
    (PaymentChannelContract.make [] [] 0).transfer 0 2 1
      = ({ success := false, error := some "Invalid participant index" },
         PaymentChannelContract.make [] [] 0) := by
  constructor
  · decide
  · rfl

/-- C2 (amended): every transfer either succeeds — applying the sequential
debit/credit (which cancels out when src = dst) and incrementing the nonce by
exactly 1 — or fails leaving the contract exactly as it was; and whenever
both indices are in range and amount exceeds balances[src], it fails with
"Insufficient balance" and changes nothing. -/
theorem transfer_atomicity_and_insufficiency (c : PaymentChannelContract)
    (src dst : Nat) (amount : Int) :
    ((c.transfer src dst amount).1.success = true →
      ((c.transfer src dst amount).2.nonce = c.nonce + 1 ∧
       (src ≠ dst → (c.transfer src dst amount).2.bal src = c.bal src - amount ∧
                    (c.transfer src dst amount).2.bal dst = c.bal dst + amount) ∧
       (src = dst → (c.transfer src dst amount).2.balance0 = c.balance0 ∧
                    (c.transfer src dst amount).2.balance1 = c.balance1))) ∧
    ((c.transfer src dst amount).1.success = false →
      (c.transfer src dst amount).2 = c) ∧
    (src < 2 → dst < 2 → c.bal src < amount →
      c.transfer src dst amount
        = ({ success := false, error := some "Insufficient balance" }, c)) := by
  by_cases h1 : 2 ≤ src ∨ 2 ≤ dst
  · refine ⟨?_, ?_, ?_⟩
    · intro hs; simp [PaymentChannelContract.transfer, h1] at hs
    · intro _; simp [PaymentChannelContract.transfer, h1]
    · intro hs hd _; exact absurd h1 (by omega)
  · by_cases h2 : c.bal src < amount
    · refine ⟨?_, ?_, ?_⟩
      · intro hs; simp [PaymentChannelContract.transfer, h1, h2] at hs
      · intro _; simp [PaymentChannelContract.transfer, h1, h2]
      · intro _ _ _; simp [PaymentChannelContract.transfer, h1, h2]
    · have hsrc : src = 0 ∨ src = 1 := by omega
      have hdst : dst = 0 ∨ dst = 1 := by omega
      refine ⟨?_, ?_, ?_⟩
      · intro _
        rcases hsrc with hs0 | hs0 <;> subst hs0
        · have hb : ¬ c.balance0 < amount := h2
          rcases hdst with hd0 | hd0 <;> subst hd0 <;>
            simp [PaymentChannelContract.transfer, PaymentChannelContract.bal,
                  PaymentChannelContract.setBal, h1, hb]
        · have hb : ¬ c.balance1 < amount := h2
          rcases hdst with hd0 | hd0 <;> subst hd0 <;>
            simp [PaymentChannelContract.transfer, PaymentChannelContract.bal,
                  PaymentChannelContract.setBal, h1, hb]
      · intro hs; simp [PaymentChannelContract.transfer, h1, h2] at hs
      · intro _ _ hlt; exact absurd hlt h2

/-- C2 witness: with balances [10, 10], transfer(0, 1, 4) succeeds with
balances [6, 14] and nonce 1, and transfer(0, 1, 11) fails "Insufficient
balance" leaving the contract unchanged. -/
theorem transfer_atomicity_and_insufficiency_witness :
    ((PaymentChannelContract.make [] [] 10).transfer 0 1 4).2.nonce = 0 + 1 ∧
    (PaymentChannelContract.make [] [] 10).transfer 0 1 11
      = ({ success := false, error := some "Insufficient balance" },
         PaymentChannelContract.make [] [] 10) :=
  ⟨((transfer_atomicity_and_insufficiency
      (PaymentChannelContract.make [] [] 10) 0 1 4).1 (by decide)).1,
   (transfer_atomicity_and_insufficiency
      (PaymentChannelContract.make [] [] 10) 0 1 11).2.2
      (by decide) (by decide) (by decide)⟩

/-- C6 (counterexample): settle() on a fresh channel returns success, and a
subsequent transfer(0, 1, 5) still succeeds with balances [5, 15] and
nonce 1 — settle does not make the channel terminal. -/
theorem transfer_succeeds_after_settle :
    ((PaymentChannelContract.make [] [] 10).settle).1
        = { success := true, error := none } ∧
    (((PaymentChannelContract.make [] [] 10).settle).2.transfer 0 1 5)
      = ({ success := true, error := none },
         { participant0 := [], participant1 := [], balance0 := 5,
           balance1 := 15, nonce := 1 }) := by
  exact ⟨rfl, by decide⟩

/-- C6 (amended): settle() always returns success and writes no field of the
contract; a transfer issued after settle behaves exactly as the same transfer
issued before it — settle does not mark the channel terminal. -/
theorem settle_is_noop (c : PaymentChannelContract) :
    c.settle = ({ success := true, error := none }, c) ∧
    (∀ src dst amount, (c.settle).2.transfer src dst amount
        = c.transfer src dst amount) :=
  ⟨rfl, fun _ _ _ => rfl⟩

/-- C7 (counterexample): transfer(0, 0, 5) — src = dst = 0, both in
{0, 1} — succeeds on a channel with balances [10, 10] (the debit and credit
cancel and the nonce still increments); the claim requires it to fail
InvalidArgument. -/
theorem transfer_same_index_succeeds :
    (PaymentChannelContract.make [] [] 10).transfer 0 0 5
      = ({ success := true, error := none },
         { PaymentChannelContract.make [] [] 10 with nonce := 1 }) := by
  decide

/-- C7 (amended): transfer fails with "Invalid participant index" and leaves
the contract unchanged whenever src ≥ 2 or dst ≥ 2; src = dst is not
rejected — with both indices in range and a sufficient balance the call
succeeds even when src = dst. -/
theorem transfer_index_check (c : PaymentChannelContract)
    (src dst : Nat) (amount : Int) :
    (2 ≤ src ∨ 2 ≤ dst →
      c.transfer src dst amount
        = ({ success := false, error := some "Invalid participant index" }, c)) ∧
    (src < 2 → dst < 2 → amount ≤ c.bal src →
      (c.transfer src dst amount).1 = { success := true, error := none }) := by
  constructor
  · intro h; simp [PaymentChannelContract.transfer, h]
  · intro hs hd ha
    have h1 : ¬ (2 ≤ src ∨ 2 ≤ dst) := by omega
    have h2 : ¬ c.bal src < amount := not_lt.mpr ha
    simp [PaymentChannelContract.transfer, h1, h2]

/-- C7 witness: transfer(2, 0, 1) fails "Invalid participant index" leaving
the channel unchanged, and transfer(0, 0, 5) on balances [10, 10]
succeeds. -/
theorem transfer_index_check_witness :
    (PaymentChannelContract.make [] [] 10).transfer 2 0 1
      = ({ success := false, error := some "Invalid participant index" },
         PaymentChannelContract.make [] [] 10) ∧
    ((PaymentChannelContract.make [] [] 10).transfer 0 0 5).1
      = { success := true, error := none } :=
  ⟨(transfer_index_check (PaymentChannelContract.make [] [] 10) 2 0 1).1
      (by decide),
   (transfer_index_check (PaymentChannelContract.make [] [] 10) 0 0 5).2
      (by decide) (by decide) (by decide)⟩

/-- C1 (counterexample): after addCell([1]) returns id 0, the AddReference
op code with from = to = 0 succeeds and appends the self-loop (0, 0) to
references, which started empty — no CycleDetected failure occurs and the
references are changed. -/
theorem addReference_self_loop_succeeds :
    (DAGBOC.empty.addCell [1]).2.references = [] ∧
    (DAGBOC.empty.addCell [1]).2.processOpCode (.addReference 0 0)
      = .ok { dagCells := [[1]], references := [(0, 0)], roots := [],
              hash := none, stateMapping := [] } := by
  exact ⟨rfl, rfl⟩

/-- C1 (amended): processOpCode performs no cycle detection (and no existence
check) for AddReference: for every store and every pair of ids it succeeds,
appending the edge (from, to) to references. -/
theorem addReference_unchecked (s : DAGBOC) (src dst : Nat) :
    s.processOpCode (.addReference src dst)
      = .ok { s with references := s.references ++ [(src, dst)] } := rfl

/-- C5 (counterexample): build a store with cells [1] (id 0) and [2] (id 1),
the reference (0, 1), and cell 0 installed as a root. Removing cell [1]
(the root) then succeeds, and removing cell [2] (the referenced cell)
succeeds as well — in both cases the reference list and the root list are
left pointing at removed data, with no InvalidOperation failure. -/
theorem remove_referenced_root_succeeds :
    DAGBOC.empty.applyOps
        [.add [1], .add [2], .addReference 0 1, .setRoot 0, .remove [1]]
      = .ok { dagCells := [[2]], references := [(0, 1)], roots := [[1]],
              hash := none, stateMapping := [] } ∧
    DAGBOC.empty.applyOps
        [.add [1], .add [2], .addReference 0 1, .setRoot 0, .remove [2]]
      = .ok { dagCells := [[1]], references := [(0, 1)], roots := [[1]],
              hash := none, stateMapping := [] } := by
  exact ⟨rfl, rfl⟩

/-- C5 (amended): the Remove op code never checks roots or references: it
fails only (with "Cell not found") when no cell's content equals the given
payload, and otherwise deletes the first matching cell, leaving references
and roots untouched. -/
theorem remove_ignores_roots_and_references (s : DAGBOC) (cell : List Nat) :
    (s.dagCells.findIdx? (· == cell) = none →
      s.processOpCode (.remove cell) = .error "Cell not found") ∧
    (∀ i, s.dagCells.findIdx? (· == cell) = some i →
      s.processOpCode (.remove cell)
        = .ok { s with dagCells := s.dagCells.eraseIdx i }) := by
  constructor
  · intro h; simp [DAGBOC.processOpCode, h]
  · intro i h; simp [DAGBOC.processOpCode, h]

/-- C5 witness: on the one-cell store holding [1], removing [2] fails
"Cell not found" and removing [1] succeeds, emptying dagCells. -/
theorem remove_ignores_roots_and_references_witness :
    (DAGBOC.empty.addCell [1]).2.processOpCode (.remove [2])
        = .error "Cell not found" ∧
    (DAGBOC.empty.addCell [1]).2.processOpCode (.remove [1])
        = .ok { dagCells := [], references := [], roots := [],
                hash := none, stateMapping := [] } :=
  ⟨(remove_ignores_roots_and_references (DAGBOC.empty.addCell [1]).2 [2]).1
      (by decide),
   (remove_ignores_roots_and_references (DAGBOC.empty.addCell [1]).2 [1]).2 0
      (by decide)⟩

/-- C3 (code bug evidence): for the snapshot whose single state cell is the
Uint8Array [1], the serialize/deserialize round trip yields a different
snapshot — the cell comes back as the plain JSON object {"0": 1}, because
JSON.stringify writes a Uint8Array as an index-keyed object and deserialize
never rebuilds typed arrays. Consequently computeHash's digest input changes
from [1] to the empty byte string, so the round-tripped snapshot hashes
differently under any injective digest. -/
theorem stateboc_roundtrip_not_identity :
    bocExample.roundTrip ≠ bocExample ∧
    bocExample.roundTrip
      = { stateCells := [.obj [("0", .num 1)]], references := [], roots := [],
          hashValue := none } ∧
    bocExample.roundTrip.digestInput = [] ∧
    bocExample.digestInput = [1] := by
  refine ⟨?_, rfl, rfl, rfl⟩
  intro h
  have h2 := congrArg STATEBOC.digestInput h
  rw [show bocExample.roundTrip.digestInput = [] from rfl,
      show bocExample.digestInput = [1] from rfl] at h2
  exact absurd h2 (by decide)

/-- C9: computeHash reads only stateCells, references and roots — two
snapshots that agree on those three fields produce the same digest input and
hence the same hash, whatever their cached hashValue fields hold. -/
theorem computeHash_ignores_cached_hash (digest : List Nat → List Nat)
    (s1 s2 : STATEBOC) (hc : s1.stateCells = s2.stateCells)
    (hr : s1.references = s2.references) (hro : s1.roots = s2.roots) :
    s1.computeHashWith digest = s2.computeHashWith digest := by
  unfold STATEBOC.computeHashWith STATEBOC.digestInput
  rw [hc, hr, hro]

/-- C9 witness: two snapshots with the same cells and one differing cached
hash (unset versus 32 bytes of 7) get identical digests. -/
theorem computeHash_ignores_cached_hash_witness :
    STATEBOC.computeHashWith (fun l => l)
        { stateCells := [.bytes [5]], references := [], roots := [],
          hashValue := none }
      = STATEBOC.computeHashWith (fun l => l)
        { stateCells := [.bytes [5]], references := [], roots := [],
          hashValue := some (.bytes (List.replicate 32 7)) } :=
  computeHash_ignores_cached_hash (fun l => l) _ _ rfl rfl rfl

/-- C10: getHash never recomputes anything: whatever the three content
fields hold (empty or not), it returns the cached hash bytes when hashValue
is set and the 32-byte all-zero array when it is not. -/
theorem getHash_cached_or_zero (cells refs roots : List JsVal) :
    (∀ h : List Nat,
      STATEBOC.getHash { stateCells := cells, references := refs,
                         roots := roots, hashValue := some (.bytes h) }
        = .bytes h) ∧
    STATEBOC.getHash { stateCells := cells, references := refs,
                       roots := roots, hashValue := none }
      = .bytes (List.replicate 32 0) := by
  constructor
  · intro h; simp [STATEBOC.getHash, jsTruthy]
  · rfl
